import Mathlib

/-!
Shallow embedding of the connection-authentication core of the NATS server
(`server/auth.go`) and proofs of the specification claims about it.

Go maps are modelled as association lists with overwrite-on-insert; Go `nil`
slices, maps and pointers are modelled with `Option`; external collaborators
(the account resolver, the crypto primitives, the concurrent account registry
and the connection registration callbacks) are modelled as an oracle record
`AuthEnv`, so that every theorem quantifying over `AuthEnv` holds for any
behaviour of those collaborators.
-/

namespace NatsAuth

/-- Entry of a subject permission: ordered allow and deny pattern sequences,
either of which may be absent (Go nil slice). From `SubjectPermission` in
`server/auth.go`. -/
structure SubjectPermission where
  allow : Option (List String)
  deny : Option (List String)
deriving DecidableEq, Repr

/-- Response permission: max message count and TTL (a Go `time.Duration`,
modelled as an integer number of nanoseconds). From `ResponsePermission`. -/
structure ResponsePermission where
  maxMsgs : Int
  expires : Int
deriving DecidableEq, Repr

/-- Permissions attached to a user: publish/subscribe subject permissions and
an optional response permission. From `Permissions` in `server/auth.go`. -/
structure Permissions where
  publish : Option SubjectPermission
  subscribe : Option SubjectPermission
  response : Option ResponsePermission
deriving DecidableEq, Repr

/-- Account: external to the auth core (`server/accounts.go` is not part of
the embedded source). Modelled from the spec: opaque except for `name`,
`issuer`, `is_expired()`, `has_issuer(k)`, `check_user_revoked(subject)`,
`default_perms` and `claim_jwt`. -/
structure Account where
  name : String
  issuer : String
  signingKeys : List String
  isExpired : Bool
  revokedUsers : List String
  defaultPerms : Option Permissions
  claimJWT : String
deriving DecidableEq, Repr

/-- Modelled from the spec: `has_issuer(k)` holds when `k` is the account's
issuer or is listed among its signing keys. -/
def Account.hasIssuerKey (acc : Account) (k : String) : Bool :=
  acc.issuer == k || acc.signingKeys.contains k

/-- Modelled from the spec: `check_user_revoked(subject)` — whether the
account revokes the given user subject. -/
def Account.checkUserRevoked (acc : Account) (subject : String) : Bool :=
  acc.revokedUsers.contains subject

/-- User entry for multi-user configurations. From `User` in `server/auth.go`. -/
structure User where
  username : String
  password : String
  permissions : Option Permissions
  account : Option Account
deriving DecidableEq, Repr

/-- Nkey-based user entry. From `NkeyUser` in `server/auth.go`. -/
structure NkeyUser where
  nkey : String
  permissions : Option Permissions
  account : Option Account
  signingKey : String
deriving DecidableEq, Repr

/-- Deep copy of a subject permission, from `(*SubjectPermission).clone`.
In a pure setting the copy is equal to the source; the structure of the Go
code (copying each slice when non-nil) is reproduced. -/
def SubjectPermission.clone (p : SubjectPermission) : SubjectPermission :=
  { allow := p.allow.map (fun a => a.map id)
    deny := p.deny.map (fun d => d.map id) }

/-- Deep copy of a permission set, from `(*Permissions).clone` (the nil case
of the Go receiver is handled by the `Option.map` at call sites). -/
def Permissions.clone (p : Permissions) : Permissions :=
  { publish := p.publish.map SubjectPermission.clone
    subscribe := p.subscribe.map SubjectPermission.clone
    response := p.response.map (fun r => { maxMsgs := r.maxMsgs, expires := r.expires }) }

/-- Deep copy of a user, from `(*User).clone`. -/
def User.clone (u : User) : User :=
  { u with permissions := u.permissions.map Permissions.clone }

/-- Deep copy of an nkey user, from `(*NkeyUser).clone`. -/
def NkeyUser.clone (n : NkeyUser) : NkeyUser :=
  { n with permissions := n.permissions.map Permissions.clone }

/-- Modelled from the spec: implementation-wide default for the max number of
response messages (`DEFAULT_ALLOW_RESPONSE_MAX_MSGS`, defined outside
`server/auth.go`); its concrete value does not matter to any claim, only that
it is fixed. -/
def DEFAULT_ALLOW_RESPONSE_MAX_MSGS : Int := 1

/-- Modelled from the spec: implementation-wide default response expiration
(`DEFAULT_ALLOW_RESPONSE_EXPIRATION`, defined outside `server/auth.go`),
as a duration in nanoseconds. -/
def DEFAULT_ALLOW_RESPONSE_EXPIRATION : Int := 120000000000

/-- Response-permission validation, from `validateResponsePermissions` in
`server/auth.go`. The Go function mutates `*Permissions` in place and returns
early when the pointer or the response field is nil; here it is a pure
function on `Option Permissions`. -/
def validateResponsePermissions (p : Option Permissions) : Option Permissions :=
  match p with
  | none => none
  | some q =>
    match q.response with
    | none => some q
    | some r =>
      let pub := match q.publish with
        | none => { allow := none, deny := none : SubjectPermission }
        | some pb => pb
      let pub := if pub.allow = none then { pub with allow := some [] } else pub
      let r := if r.maxMsgs = 0 then { r with maxMsgs := DEFAULT_ALLOW_RESPONSE_MAX_MSGS } else r
      let r := if r.expires = 0 then { r with expires := DEFAULT_ALLOW_RESPONSE_EXPIRATION } else r
      some { q with publish := some pub, response := some r }

/-- Bcrypt pattern test, from the package-level `validBcryptPrefix` regular
expression of `server/auth.go`, which is exactly the Go pattern
`^\$2[a,b,x,y]{1}\$\d{2}\$.*`: anchored at the start, the trailing `.*` can
match the empty string, so the whole pattern is equivalent to a check of the
first seven characters. Note that the Go character class `[a,b,x,y]` also
contains the comma character. -/
def validBcryptRe (s : String) : Bool :=
  match s.toList with
  | '$' :: '2' :: c :: '$' :: d1 :: d2 :: '$' :: _ =>
    (c == 'a' || c == ',' || c == 'b' || c == 'x' || c == 'y') && d1.isDigit && d2.isDigit
  | _ => false

/-- Bcrypt detection, from `isBcrypt` in `server/auth.go`. The Go guard
`strings.HasPrefix(password, "$")` is rendered as a first-character test,
which is equivalent for the single-character pattern `"$"`. -/
def isBcrypt (password : String) : Bool :=
  match password.toList with
  | '$' :: _ => validBcryptRe password
  | _ => false

/-- Modelled from the spec's words for claim C2 only: the pattern the spec
states for `is_bcrypt`, namely `^\$2[abxy]\$\d{2}\$.*` with the character
after `$2` exactly one of `a`, `b`, `x`, `y`. Used to compare the code's
behaviour against the claimed one. -/
def specBcryptRe (s : String) : Bool :=
  match s.toList with
  | '$' :: '2' :: c :: '$' :: d1 :: d2 :: '$' :: _ =>
    (c == 'a' || c == 'b' || c == 'x' || c == 'y') && d1.isDigit && d2.isDigit
  | _ => false

/-- Operator claims are opaque to the auth core; only the length of the
trusted-operator list matters to `validateAuth`. -/
structure OperatorClaims where
  subject : String
deriving DecidableEq, Repr

/-- Cluster section of the options, from `Options.Cluster` (fields used by
`isRouterAuthorized`). -/
structure ClusterOpts where
  username : String
  password : String
  tlsMap : Bool

/-- Gateway section of the options, from `Options.Gateway` (fields used by
`isGatewayAuthorized`). -/
structure GatewayOpts where
  username : String
  password : String
  tlsMap : Bool

/-- Leafnode section of the options, from `Options.LeafNode` (fields used by
`isLeafNodeAuthorized`). -/
structure LeafNodeOpts where
  username : String
  password : String
  account : String
  users : List User

/-- Websocket section of the options, from `Options.Websocket` (fields used
by `getAuthOpts`). -/
structure WebsocketOpts where
  username : String
  password : String
  token : String
  noAuthUser : String
  tlsMap : Bool

end NatsAuth

namespace NatsAuth

/-- Connection kinds, from the client kind constants of the server package.
`SYSTEM` is an internal kind that is none of the four dispatched ones. -/
inductive ClientKind where
  | CLIENT
  | ROUTER
  | GATEWAY
  | LEAF
  | SYSTEM
deriving DecidableEq, Repr

/-- CONNECT-frame options of a connection, from `clientOpts` (the fields the
auth core reads or writes). -/
structure ClientOpts where
  username : String
  password : String
  token : String
  jwt : String
  nkey : String
  sig : String
deriving DecidableEq, Repr

/-- Attribute type-and-value of one RDN, reduced to what `getTLSAuthDCs`
inspects: whether the ASN.1 value is a string (and which), and whether the
attribute type equals the domain-component OID. -/
structure ATV where
  value : Option String
  isDC : Bool
deriving DecidableEq, Repr

/-- Peer certificate, reduced to the fields `checkClientTLSCertSubject`
reads: email addresses, DNS SANs, URIs (already rendered to strings), the
rendered subject string (`cert.Subject.String()`), the rendered RDN sequence
of the subject (`cert.Subject.ToRDNSequence().String()`), and the result of
`asn1.Unmarshal` on the raw subject (`none` models an unmarshal error). -/
structure TLSCert where
  emailAddresses : List String
  dnsNames : List String
  uris : List String
  subjectString : String
  subjectRDNString : String
  rawSubjectRDNs : Option (List (List ATV))
deriving DecidableEq, Repr

/-- TLS connection state, from `tls.ConnectionState` (only the peer
certificate chain is read). -/
structure TLSConnState where
  peerCertificates : List TLSCert
deriving DecidableEq, Repr

/-- Connection as seen by the auth core: kind, CONNECT options, TLS state,
server-issued nonce and the websocket indicator (`c.ws != nil`). -/
structure Client where
  kind : ClientKind
  opts : ClientOpts
  tlsState : Option TLSConnState
  nonce : String
  isWebsocket : Bool
deriving DecidableEq, Repr

/-- Domain-component extraction, from `getTLSAuthDCs` in `server/auth.go`:
walk the RDN sequence, skip empty RDNs, keep string-valued attributes whose
type is the DC OID, render each as `DC=value` and join with commas. -/
def getTLSAuthDCs (rdns : List (List ATV)) : String :=
  let dcs := (rdns.filter (fun rdn => rdn.length ≠ 0)).foldl
    (fun acc rdn => rdn.foldl
      (fun acc atv =>
        match atv.value with
        | none => acc
        | some v => if atv.isDC then acc ++ ["DC=" ++ v] else acc) acc) []
  String.intercalate "," dcs

/-- Switch statement of `checkClientTLSCertSubject` (lines 689-712), returning
the first candidate identity accepted by the predicate. The email case falls
through to the SAN iteration; the URI case is reached only when there are
neither emails nor SANs. -/
def tlsSwitchMatch (cert : TLSCert) (fn : String → Bool) : Option String :=
  if cert.emailAddresses ≠ [] then
    (cert.emailAddresses.find? fn).or (cert.dnsNames.find? fn)
  else if cert.dnsNames ≠ [] then cert.dnsNames.find? fn
  else if cert.uris ≠ [] then cert.uris.find? fn
  else none

/-- Final fallback of `checkClientTLSCertSubject` (lines 714-733): the RDN
sequence joined with its domain components when parsing succeeds and DCs
exist, then the plain certificate subject string. -/
def tlsFallbackMatch (cert : TLSCert) (fn : String → Bool) : Option String :=
  (match cert.rawSubjectRDNs with
   | some rdns =>
     let dcs := getTLSAuthDCs rdns
     if dcs.length > 0 then
       let u := cert.subjectRDNString ++ "," ++ dcs
       if fn u then some u else none
     else none
   | none => none).or
  (if fn cert.subjectString then some cert.subjectString else none)

/-- Boolean view of `tlsFallbackMatch`. -/
def tlsFallbackB (cert : TLSCert) (fn : String → Bool) : Bool :=
  (tlsFallbackMatch cert fn).isSome

/-- TLS subject extractor, from `checkClientTLSCertSubject` in
`server/auth.go`, returning the identity string that matched (the Go function
returns a boolean and communicates the identity through the stateful
predicate; the matched candidate is returned instead here). -/
def checkClientTLSCertSubjectMatch (tlsState : Option TLSConnState)
    (fn : String → Bool) : Option String :=
  match tlsState with
  | none => none
  | some st =>
    match st.peerCertificates with
    | [] => none
    | cert :: _ =>
      if cert.emailAddresses.isEmpty && cert.subjectString.isEmpty && cert.uris.isEmpty
      then none
      else (tlsSwitchMatch cert fn).or (tlsFallbackMatch cert fn)

/-- Boolean result of the TLS subject extractor, as returned by the Go
`checkClientTLSCertSubject`. -/
def checkClientTLSCertSubject (tlsState : Option TLSConnState)
    (fn : String → Bool) : Bool :=
  (checkClientTLSCertSubjectMatch tlsState fn).isSome

/-- Decoded user JWT claims, reduced to the fields `server/auth.go` reads. -/
structure UserClaims where
  issuer : String
  issuerAccount : String
  subject : String
  bearerToken : Bool
deriving DecidableEq, Repr

/-- Account claims, reduced to the fields the generated-account path renames
(`jwtClaim.Name`, `jwtClaim.Subject`). -/
structure AccountClaims where
  name : String
  subject : String
deriving DecidableEq, Repr

/-- Outcome of `updateAccountWithClaimJWT`: success, the distinguished
`ErrAccountResolverSameClaims` sentinel (treated as success), or an error. -/
inductive UpdateClaimResult where
  | ok
  | sameClaims
  | err
deriving DecidableEq, Repr

/-- Server options, from `Options` (the fields the auth core reads). -/
structure Options where
  username : String
  password : String
  authorization : String
  noAuthUser : String
  tlsMap : Bool
  users : Option (List User)
  nkeys : Option (List NkeyUser)
  trustedOperators : List OperatorClaims
  systemAccount : String
  customClientAuthentication : Option (Client → Bool)
  customRouterAuthentication : Option (Client → Bool)
  cluster : ClusterOpts
  gateway : GatewayOpts
  leafNode : LeafNodeOpts
  websocket : WebsocketOpts

/-- Websocket-specific server auth state, from `s.websocket` (the fields
`getAuthOpts` reads). -/
structure WsAuthState where
  authRequired : Bool
  users : Option (List (String × User))
  nkeys : Option (List (String × NkeyUser))

/-- Server info, from `s.info` (only `AuthRequired` is read). -/
structure ServerInfo where
  authRequired : Bool

/-- Server state, from the `Server` fields the auth core reads: options,
info, trusted operator keys (`nil` slice modelled as `none`), the user and
nkey maps, the global account and the websocket auth state. -/
structure ServerState where
  opts : Options
  info : ServerInfo
  trustedKeys : Option (List String)
  users : Option (List (String × User))
  nkeys : Option (List (String × NkeyUser))
  gacc : Account
  websocket : WsAuthState

/-- Oracle record for the external collaborators of the auth core. Modelled
from the spec: bcrypt comparison, JWT decoding and validation, the account
resolver and registry, nkey cryptography, base64 decoding and the connection
registration callbacks all live outside `server/auth.go`; each theorem that
quantifies over `AuthEnv` therefore holds for every behaviour of them. -/
structure AuthEnv where
  bcryptCompare : String → String → Bool
  decodeUserClaims : String → Option UserClaims
  claimsBlocking : UserClaims → Bool
  lookupAccount : String → Option Account
  isTrustedIssuer : String → Bool
  base64RawURLDecode : String → Option String
  base64StdDecode : String → Option String
  nkeyFromPublicKey : String → Bool
  nkeyVerify : String → String → String → Bool
  registerNkeyUser : NkeyUser → Bool
  registerWithAccount : Account → Bool
  accountsLoad : String → Option Account
  verifyAccountClaims : String → Option AccountClaims
  accountClaimsString : AccountClaims → String
  buildInternalAccount : AccountClaims → Account
  registerAccount : Account → Option Account
  updateAccountWithClaimJWT : Account → String → UpdateClaimResult

/-- Lookup in an association-list model of a Go map. -/
def mapLookup (m : List (String × α)) (k : String) : Option α :=
  (m.find? (fun kv => kv.1 == k)).map (fun kv => kv.2)

/-- Insertion with overwrite in an association-list model of a Go map. -/
def mapInsert (m : List (String × α)) (k : String) (v : α) : List (String × α) :=
  m.filter (fun kv => kv.1 ≠ k) ++ [(k, v)]

/-- Password comparison, from `comparePasswords` in `server/auth.go`: bcrypt
verification when the stored secret looks bcrypted, plain string equality
otherwise. -/
def comparePasswords (env : AuthEnv) (serverPassword clientPassword : String) : Bool :=
  if isBcrypt serverPassword then env.bcryptCompare serverPassword clientPassword
  else serverPassword == clientPassword

/-- Signature decoding, from the two-step base64 decode used in
`processClientOrLeafAuthentication`: raw-URL base64 first, standard base64 as
fallback. -/
def decodeSignature (env : AuthEnv) (sigStr : String) : Option String :=
  match env.base64RawURLDecode sigStr with
  | some b => some b
  | none => env.base64StdDecode sigStr

/-- Effective credential set, from the `authOpts` struct of `server/auth.go`. -/
structure AuthOptsR where
  username : String
  password : String
  token : String
  noAuthUser : String
  tlsMap : Bool
  users : Option (List (String × User))
  nkeys : Option (List (String × NkeyUser))
deriving DecidableEq, Repr

/-- Credential selector, from `(*Server).getAuthOpts`: returns `none` when no
auth is required, otherwise the effective credential set, applying the
websocket overlay for websocket connections. -/
def getAuthOpts (s : ServerState) (o : Options) (c : Client) : Option AuthOptsR :=
  let wsClient := c.isWebsocket
  let authRequired :=
    if !s.info.authRequired && wsClient then s.websocket.authRequired
    else s.info.authRequired
  if !authRequired then none
  else
    let noAuthUser :=
      if wsClient ∧ o.websocket.noAuthUser ≠ "" then o.websocket.noAuthUser
      else o.noAuthUser
    let tlsMap := if wsClient ∧ o.websocket.tlsMap then true else o.tlsMap
    if wsClient ∧ s.websocket.authRequired then
      some { username := o.websocket.username, password := o.websocket.password,
             token := o.websocket.token, noAuthUser := noAuthUser, tlsMap := tlsMap,
             users := s.websocket.users, nkeys := s.websocket.nkeys }
    else
      some { username := o.username, password := o.password,
             token := o.authorization, noAuthUser := noAuthUser, tlsMap := tlsMap,
             users := s.users, nkeys := s.nkeys }

/-- Result of the client/leaf ladder: the boolean verdict together with the
registration effects the Go code performs on acceptance (`RegisterUser`,
`RegisterNkeyUser`, recording the public key). -/
structure AuthResult where
  ok : Bool
  registeredUser : Option User
  registeredNkey : Option NkeyUser
  pubKey : Option String
deriving DecidableEq, Repr

/-- Denial result: every `return false` of the ladder. -/
def denyR : AuthResult :=
  { ok := false, registeredUser := none, registeredNkey := none, pubKey := none }

/-- Plain acceptance result with no user or nkey registration. -/
def passR : AuthResult :=
  { ok := true, registeredUser := none, registeredNkey := none, pubKey := none }

/-- JWT decoding step, from lines 410-425 of `server/auth.go`: when trusted
keys are configured and the CONNECT carries a JWT, decode and block-validate
it; outer `none` is a denial, inner value is the `juc` candidate. -/
def decodeJucStep (s : ServerState) (env : AuthEnv) (c : Client) : Option (Option UserClaims) :=
  if s.trustedKeys ≠ none ∧ c.opts.jwt ≠ "" then
    match env.decodeUserClaims c.opts.jwt with
    | none => none
    | some juc => if env.claimsBlocking juc then none else some (some juc)
  else some none

/-- Nkey/user candidate selection, from lines 428-476 of `server/auth.go`:
the nkeys-map branch, the TLS-map branch and the username branch (with the
no-auth-user synthesis). Returns `none` for denial, otherwise the nkey
candidate, the user candidate and the possibly rewritten CONNECT options. -/
def credentialPhase (s : ServerState) (c : Client) (auth : AuthOptsR) :
    Option (Option NkeyUser × Option User × ClientOpts) :=
  if auth.nkeys ≠ none ∧ c.opts.nkey ≠ "" then
    match mapLookup (auth.nkeys.getD []) c.opts.nkey with
    | some nk => some (some nk, none, c.opts)
    | none =>
      if s.opts.systemAccount = "" then none
      else some (none, none, c.opts)
  else if auth.users ≠ none then
    if auth.tlsMap then
      match checkClientTLSCertSubjectMatch c.tlsState
          (fun u => (mapLookup (auth.users.getD []) u).isSome) with
      | none => none
      | some euser =>
        some (none, mapLookup (auth.users.getD []) euser,
              { c.opts with username := euser })
    else
      let copts :=
        if c.kind = ClientKind.CLIENT ∧ c.opts.username = "" ∧ auth.noAuthUser ≠ "" then
          match mapLookup (auth.users.getD []) auth.noAuthUser with
          | some u => { c.opts with username := u.username, password := u.password }
          | none => c.opts
        else c.opts
      if copts.username ≠ "" then
        match mapLookup (auth.users.getD []) copts.username with
        | some u => some (none, some u, copts)
        | none => none
      else some (none, none, copts)
  else some (none, none, c.opts)

/-- Modelled from the spec: `buildInternalNkeyUser` (defined outside
`server/auth.go`) builds an internal NkeyUser from the user claims and the
resolved account. -/
def buildInternalNkeyUser (juc : UserClaims) (acc : Account) : NkeyUser :=
  { nkey := juc.subject, permissions := none, account := some acc, signingKey := "" }

/-- User-JWT verification path, from lines 481-547 of `server/auth.go`:
resolve the issuing account, check trust, issuer-account consistency and
expiry, verify the nonce signature unless the claims mark a bearer token,
check revocation, then register the internal nkey user. -/
def jwtVerifyPath (env : AuthEnv) (c : Client) (juc : UserClaims) :
    AuthResult :=
  match env.lookupAccount
      (if juc.issuerAccount ≠ "" then juc.issuerAccount else juc.issuer) with
  | none => denyR
  | some acc =>
    if !env.isTrustedIssuer acc.issuer then denyR
    else if juc.issuerAccount ≠ "" ∧ !(acc.hasIssuerKey juc.issuer) then denyR
    else if acc.isExpired then denyR
    else
      let sigOK : Bool :=
        if juc.bearerToken then true
        else if c.opts.sig = "" then false
        else
          match decodeSignature env c.opts.sig with
          | none => false
          | some sigBytes =>
            if !env.nkeyFromPublicKey juc.subject then false
            else env.nkeyVerify juc.subject c.nonce sigBytes
      if !sigOK then denyR
      else if acc.checkUserRevoked juc.subject then denyR
      else
        let nk := buildInternalNkeyUser juc acc
        if env.registerNkeyUser nk then
          { ok := true, registeredUser := none, registeredNkey := some nk,
            pubKey := some juc.subject }
        else denyR

/-- Generated-account path, from lines 549-582 of `server/auth.go`: for a
CLIENT with a CONNECT nkey and a configured system account, load or
materialize an account named by the nkey; outer `none` is a denial, otherwise
the produced nkey-user candidate. -/
def generatedAccountNkey (s : ServerState) (env : AuthEnv) (copts : ClientOpts) :
    Option (Option NkeyUser) :=
  let nkeyAccR : Option Account :=
    match env.accountsLoad copts.nkey with
    | some a => some a
    | none =>
      match env.lookupAccount s.opts.systemAccount with
      | none => none
      | some sAcc =>
        match env.verifyAccountClaims sAcc.claimJWT with
        | none => none
        | some jc0 =>
          let jc := { jc0 with name := copts.nkey, subject := copts.nkey }
          let claimJwt := env.accountClaimsString jc
          let nkeyAcc0 := { env.buildInternalAccount jc with claimJWT := claimJwt }
          match env.registerAccount nkeyAcc0 with
          | some acc =>
            match env.updateAccountWithClaimJWT acc claimJwt with
            | UpdateClaimResult.err => none
            | _ => some acc
          | none => some nkeyAcc0
  match nkeyAccR with
  | none => none
  | some nAcc =>
    some (some { nkey := copts.nkey,
                 permissions := nAcc.defaultPerms.map Permissions.clone,
                 account := some nAcc, signingKey := "" })

/-- Guarded call into the generated-account path, from the condition at line
549 of `server/auth.go`. -/
def genNkeyStep (s : ServerState) (env : AuthEnv) (c : Client) (copts : ClientOpts)
    (nkey0 : Option NkeyUser) : Option (Option NkeyUser) :=
  if nkey0 = none ∧ c.kind = ClientKind.CLIENT ∧ copts.nkey ≠ "" ∧ s.opts.systemAccount ≠ "" then
    generatedAccountNkey s env copts
  else some nkey0

/-- Nkey signature verification, from lines 584-611 of `server/auth.go`. -/
def nkeySigVerify (env : AuthEnv) (c : Client) (nk : NkeyUser) : AuthResult :=
  if c.opts.sig = "" then denyR
  else
    match decodeSignature env c.opts.sig with
    | none => denyR
    | some sigBytes =>
      if !env.nkeyFromPublicKey c.opts.nkey then denyR
      else if !env.nkeyVerify c.opts.nkey c.nonce sigBytes then denyR
      else if env.registerNkeyUser nk then
        { ok := true, registeredUser := none, registeredNkey := some nk, pubKey := none }
      else denyR

/-- Leafnode account binding, from `registerLeafWithAccount` in
`server/auth.go`: bind to the named account (resolver lookup) or to the
global account. -/
def registerLeafWithAccount (s : ServerState) (env : AuthEnv) (account : String) : Bool :=
  let accR : Option Account :=
    if account ≠ "" then env.lookupAccount account
    else some s.gacc
  match accR with
  | none => false
  | some acc => env.registerWithAccount acc

/-- Static token / static single-user / leaf fallback tail of the ladder,
from lines 625-642 of `server/auth.go`. -/
def staticFinish (s : ServerState) (env : AuthEnv) (c : Client) (o : Options)
    (auth : AuthOptsR) (copts : ClientOpts) : AuthResult :=
  if c.kind = ClientKind.CLIENT then
    if auth.token ≠ "" then
      if comparePasswords env auth.token copts.token then passR else denyR
    else if auth.username ≠ "" then
      if auth.username ≠ copts.username then denyR
      else if comparePasswords env auth.password copts.password then passR else denyR
    else denyR
  else if c.kind = ClientKind.LEAF then
    if registerLeafWithAccount s env o.leafNode.account then passR else denyR
  else denyR

/-- Tail of the ladder after the server lock is released, from lines 479-642
of `server/auth.go`: the JWT path, the generated-account path, the nkey
signature path, the user-password path, then the static/leaf fallbacks. -/
def finishAuth (s : ServerState) (env : AuthEnv) (c : Client) (o : Options)
    (auth : AuthOptsR) (juc : Option UserClaims) (nkey0 : Option NkeyUser)
    (user0 : Option User) (copts : ClientOpts) : AuthResult :=
  match juc with
  | some jc => jwtVerifyPath env c jc
  | none =>
    match genNkeyStep s env c copts nkey0 with
    | none => denyR
    | some nkey1 =>
      match nkey1 with
      | some nk => nkeySigVerify env c nk
      | none =>
        match user0 with
        | some u =>
          if comparePasswords env u.password copts.password then
            { ok := true, registeredUser := some u, registeredNkey := none, pubKey := none }
          else denyR
        | none => staticFinish s env c o auth copts

/-- Client/leaf authentication ladder, from
`(*Server).processClientOrLeafAuthentication` in `server/auth.go`. -/
def processClientOrLeafAuthentication (s : ServerState) (env : AuthEnv) (c : Client)
    (o : Options) : AuthResult :=
  match getAuthOpts s o c with
  | none => passR
  | some auth =>
    if s.trustedKeys ≠ none ∧ c.opts.jwt = "" ∧ (c.opts.nkey = "" ∨ s.opts.systemAccount = "")
    then denyR
    else
      match decodeJucStep s env c with
      | none => denyR
      | some juc =>
        match credentialPhase s c auth with
        | none => denyR
        | some (nkey0, user0, copts) => finishAuth s env c o auth juc nkey0 user0 copts

/-- Client authorization, from `(*Server).isClientAuthorized`: custom
authenticator first, then the client/leaf ladder. -/
def isClientAuthorized (s : ServerState) (env : AuthEnv) (c : Client) : Bool :=
  match s.opts.customClientAuthentication with
  | some check => check c
  | none => (processClientOrLeafAuthentication s env c s.opts).ok

/-- Router authorization, from `(*Server).isRouterAuthorized`. -/
def isRouterAuthorized (s : ServerState) (env : AuthEnv) (c : Client) : Bool :=
  match s.opts.customRouterAuthentication with
  | some check => check c
  | none =>
    if s.opts.cluster.username = "" then true
    else if s.opts.cluster.tlsMap then
      checkClientTLSCertSubject c.tlsState (fun user => s.opts.cluster.username == user)
    else if s.opts.cluster.username ≠ c.opts.username then false
    else comparePasswords env s.opts.cluster.password c.opts.password

/-- Gateway authorization, from `(*Server).isGatewayAuthorized`. -/
def isGatewayAuthorized (s : ServerState) (env : AuthEnv) (c : Client) : Bool :=
  if s.opts.gateway.username = "" then true
  else if s.opts.gateway.tlsMap then
    checkClientTLSCertSubject c.tlsState (fun user => s.opts.gateway.username == user)
  else if s.opts.gateway.username ≠ c.opts.username then false
  else comparePasswords env s.opts.gateway.password c.opts.password

/-- Leafnode authorization, from `(*Server).isLeafNodeAuthorized`. -/
def isLeafNodeAuthorized (s : ServerState) (env : AuthEnv) (c : Client) : Bool :=
  let isAuthorizedFor := fun (username password account : String) =>
    if username ≠ c.opts.username then false
    else if !comparePasswords env password c.opts.password then false
    else registerLeafWithAccount s env account
  if s.opts.leafNode.username ≠ "" then
    isAuthorizedFor s.opts.leafNode.username s.opts.leafNode.password s.opts.leafNode.account
  else if s.opts.leafNode.users.length > 0 then
    match s.opts.leafNode.users.find? (fun u => u.username == c.opts.username) with
    | some u =>
      let accName := match u.account with
        | some a => a.name
        | none => ""
      isAuthorizedFor u.username u.password accName
    | none => false
  else (processClientOrLeafAuthentication s env c s.opts).ok

/-- Top-level authentication dispatch, from `(*Server).checkAuthentication`:
dispatch on the connection kind, denying every kind that is none of CLIENT,
ROUTER, GATEWAY and LEAF. -/
def checkAuthentication (s : ServerState) (env : AuthEnv) (c : Client) : Bool :=
  match c.kind with
  | ClientKind.CLIENT => isClientAuthorized s env c
  | ClientKind.ROUTER => isRouterAuthorized s env c
  | ClientKind.GATEWAY => isGatewayAuthorized s env c
  | ClientKind.LEAF => isLeafNodeAuthorized s env c
  | _ => false

/-- Per-entry transform of the nkey table build, from the loop body at lines
266-277 of `server/auth.go`: clone, resolve the declared account through the
account registry when present there, validate response permissions. -/
def buildNkeyEntry (env : AuthEnv) (u : NkeyUser) : NkeyUser :=
  let cp := u.clone
  let cp :=
    match u.account with
    | some a =>
      match env.accountsLoad a.name with
      | some v => { cp with account := some v }
      | none => cp
    | none => cp
  if cp.permissions ≠ none then
    { cp with permissions := validateResponsePermissions cp.permissions }
  else cp

/-- Per-entry transform of the user table build, from the loop body at lines
281-292 of `server/auth.go`. -/
def buildUserEntry (env : AuthEnv) (u : User) : User :=
  let cp := u.clone
  let cp :=
    match u.account with
    | some a =>
      match env.accountsLoad a.name with
      | some v => { cp with account := some v }
      | none => cp
    | none => cp
  if cp.permissions ≠ none then
    { cp with permissions := validateResponsePermissions cp.permissions }
  else cp

/-- Orphan fix-up for one nkey map entry, from the loop of
`assignGlobalAccountToOrphanUsers`. -/
def assignOrphanNkey (gacc : Account) (kv : String × NkeyUser) : String × NkeyUser :=
  if kv.2.account = none then (kv.1, { kv.2 with account := some gacc }) else kv

/-- Orphan fix-up for one user map entry, from the loop of
`assignGlobalAccountToOrphanUsers`. -/
def assignOrphanUser (gacc : Account) (kv : String × User) : String × User :=
  if kv.2.account = none then (kv.1, { kv.2 with account := some gacc }) else kv

/-- Orphan assignment pass, from `(*Server).assignGlobalAccountToOrphanUsers`
in `server/auth.go`: entries without an account are bound to the global
account (iterating a nil Go map is a no-op, hence the `Option.map`). -/
def assignGlobalAccountToOrphanUsers (gacc : Account)
    (nkeys : Option (List (String × NkeyUser))) (users : Option (List (String × User))) :
    Option (List (String × NkeyUser)) × Option (List (String × User)) :=
  (nkeys.map (List.map (assignOrphanNkey gacc)), users.map (List.map (assignOrphanUser gacc)))

/-- Table build, from `(*Server).buildNkeysAndUsersFromOptions` in
`server/auth.go`: build the keyed maps from the option slices (empty slices
leave the corresponding map nil), then assign the global account to orphans. -/
def buildNkeysAndUsersFromOptions (s : ServerState) (env : AuthEnv)
    (nko : List NkeyUser) (uo : List User) :
    Option (List (String × NkeyUser)) × Option (List (String × User)) :=
  let nkeys :=
    if nko.length > 0 then
      some (nko.foldl (fun m u => mapInsert m u.nkey (buildNkeyEntry env u)) [])
    else none
  let users :=
    if uo.length > 0 then
      some (uo.foldl (fun m u => mapInsert m u.username (buildUserEntry env u)) [])
    else none
  assignGlobalAccountToOrphanUsers s.gacc nkeys users

/-- Expected account of a built table entry, given its declared account:
resolved through the registry when present there, kept as declared otherwise,
and the global account when no account was declared. Companion definition for
the claim about `buildNkeysAndUsersFromOptions`. -/
def resolveEntryAccount (env : AuthEnv) (gacc : Account) (declared : Option Account) : Account :=
  match declared with
  | some a => (env.accountsLoad a.name).getD a
  | none => gacc

/-- Configuration validation, from `validateAuth` in `server/auth.go`:
`none` is success, `some msg` the error. -/
def validateAuth (o : Options) : Option String :=
  if o.noAuthUser = "" then none
  else if o.trustedOperators.length > 0 then
    some "no_auth_user not compatible with Trusted Operator"
  else
    match o.users with
    | none =>
      some ("no_auth_user: " ++ o.noAuthUser ++ " present, but users are not defined")
    | some us =>
      if us.any (fun u => u.username == o.noAuthUser) then none
      else
        some ("no_auth_user: " ++ o.noAuthUser ++
          " not present as user in authorization block or account configuration")

/-- Concrete certificate with DNS SANs but no email, an empty subject and no
URIs. -/
def certNoIdentity : TLSCert :=
  { emailAddresses := [], dnsNames := ["host.example"], uris := [],
    subjectString := "", subjectRDNString := "", rawSubjectRDNs := none }

/-- Certificate for the claim C4 counterexample: a DNS SAN is present and the
predicate rejects it, there are no emails, the subject string is empty and
there are no URIs. -/
def certDegenerate : TLSCert :=
  { emailAddresses := [], dnsNames := ["d"], uris := [],
    subjectString := "", subjectRDNString := "", rawSubjectRDNs := none }

/-- Predicate for the claim C4 counterexample: accepts everything except the
SAN string. -/
def fnNotD : String → Bool := fun u => !(u == "d")

/-- Concrete certificate for the claim C4 witness: one email, no SANs. -/
def certEmailOnly : TLSCert :=
  { emailAddresses := ["user@example.com"], dnsNames := [], uris := [],
    subjectString := "CN=user", subjectRDNString := "CN=user", rawSubjectRDNs := none }

/-- Concrete account used by witnesses. -/
def accW : Account :=
  { name := "G", issuer := "OP", signingKeys := [], isExpired := false,
    revokedUsers := [], defaultPerms := none, claimJWT := "" }

/-- Concrete oracle environment used by witnesses. -/
def envW : AuthEnv :=
  { bcryptCompare := fun _ _ => false
    decodeUserClaims := fun _ => none
    claimsBlocking := fun _ => false
    lookupAccount := fun _ => none
    isTrustedIssuer := fun _ => true
    base64RawURLDecode := fun _ => none
    base64StdDecode := fun _ => none
    nkeyFromPublicKey := fun _ => false
    nkeyVerify := fun _ _ _ => false
    registerNkeyUser := fun _ => true
    registerWithAccount := fun _ => true
    accountsLoad := fun _ => none
    verifyAccountClaims := fun _ => none
    accountClaimsString := fun _ => ""
    buildInternalAccount := fun _ => accW
    registerAccount := fun _ => none
    updateAccountWithClaimJWT := fun _ _ => UpdateClaimResult.ok }

/-- Concrete server options used by witnesses: everything off. -/
def optsW : Options :=
  { username := "", password := "", authorization := "", noAuthUser := "",
    tlsMap := false, users := none, nkeys := none, trustedOperators := [],
    systemAccount := "", customClientAuthentication := none,
    customRouterAuthentication := none,
    cluster := { username := "", password := "", tlsMap := false },
    gateway := { username := "", password := "", tlsMap := false },
    leafNode := { username := "", password := "", account := "", users := [] },
    websocket := { username := "", password := "", token := "",
                   noAuthUser := "", tlsMap := false } }

/-- Concrete server state used by witnesses: auth required, no credential
sources configured. -/
def serverW : ServerState :=
  { opts := optsW, info := { authRequired := true }, trustedKeys := none,
    users := none, nkeys := none, gacc := accW,
    websocket := { authRequired := false, users := none, nkeys := none } }

/-- Concrete non-websocket connection used by witnesses. -/
def clientW (k : ClientKind) (co : ClientOpts) : Client :=
  { kind := k, opts := co, tlsState := none, nonce := "NONCE", isWebsocket := false }

/-- Empty CONNECT options. -/
def coptsEmpty : ClientOpts :=
  { username := "", password := "", token := "", jwt := "", nkey := "", sig := "" }

/-- Concrete bearer-token user claims for the claim C6 witness. -/
def jucBearer : UserClaims :=
  { issuer := "AI", issuerAccount := "", subject := "U", bearerToken := true }

/-- Oracle environment for the claim C6 witness: the JWT decodes to the
bearer claims and the account resolver returns the witness account. -/
def envBearer : AuthEnv :=
  { envW with
    decodeUserClaims := fun _ => some jucBearer
    lookupAccount := fun _ => some accW }

/-- Server state for the claim C6 witness: trusted operator keys set. -/
def serverTrusted : ServerState :=
  { serverW with trustedKeys := some ["OP"] }

/-- Connection for the claim C6 witness: carries a JWT, an empty sig. -/
def clientJwt : Client :=
  clientW ClientKind.CLIENT { coptsEmpty with jwt := "JWT" }

/-- Effective credential set for the claim C6 witness. -/
def authEmptyW : AuthOptsR :=
  { username := "", password := "", token := "", noAuthUser := "",
    tlsMap := false, users := none, nkeys := none }

/-- Guest user for the claim C5 development. -/
def uGuest : User :=
  { username := "guest", password := "", permissions := none, account := none }

/-- Users map containing only the guest user. -/
def mGuest : List (String × User) := [("guest", uGuest)]

/-- Options for claim C5: `no_auth_user` set to `guest`. -/
def optsNoAuth : Options := { optsW with noAuthUser := "guest" }

/-- Server state for claim C5: the guest users map is installed and
`no_auth_user` names the guest. -/
def serverNoAuth : ServerState :=
  { serverW with opts := optsNoAuth, users := some mGuest }

/-- Effective credential set selected for claim C5's server state. -/
def authNoAuth : AuthOptsR :=
  { username := "", password := "", token := "", noAuthUser := "guest",
    tlsMap := false, users := some mGuest, nkeys := none }

/-- User for the claim C7 witness: declares no account. -/
def userAlice : User :=
  { username := "alice", password := "s3cret", permissions := none, account := none }

/-- Claim C2: the spec states that `is_bcrypt(s)` is true iff `s` matches
`^\$2[abxy]\$\d{2}\$.*`, with the character after `$2` exactly one of
`a`, `b`, `x`, `y`. The source's character class is `[a,b,x,y]`, which also
contains the comma, so `isBcrypt` accepts the string starting with
the seven characters dollar-2-comma-dollar-1-0-dollar, which the claimed
pattern rejects: a slip in the code, since no bcrypt version prefix is a
comma and the function's stated purpose is bcrypt detection. -/
theorem claim2_bcrypt_comma_divergence :
    isBcrypt "$2,$10$abcdefghij" = true ∧ specBcryptRe "$2,$10$abcdefghij" = false := by
  decide

/-- Closed form of `validateResponsePermissions` when a response permission
is present. -/
theorem vrp_response_some (pubOpt subOpt : Option SubjectPermission) (mm ex : Int) :
    validateResponsePermissions (some ⟨pubOpt, subOpt, some ⟨mm, ex⟩⟩) =
      some ⟨some { allow := some ((pubOpt.bind SubjectPermission.allow).getD [])
                   deny := pubOpt.bind SubjectPermission.deny },
            subOpt,
            some { maxMsgs := if mm = 0 then DEFAULT_ALLOW_RESPONSE_MAX_MSGS else mm
                   expires := if ex = 0 then DEFAULT_ALLOW_RESPONSE_EXPIRATION else ex }⟩ := by
  rcases pubOpt with _ | ⟨alOpt, deOpt⟩
  · by_cases hm : mm = 0 <;> by_cases he : ex = 0 <;>
      simp [validateResponsePermissions, hm, he]
  · rcases alOpt with _ | al <;> by_cases hm : mm = 0 <;> by_cases he : ex = 0 <;>
      simp [validateResponsePermissions, hm, he]

/-- Claim C8: `validateResponsePermissions` is idempotent; after one
application, whenever the response field is non-null the publish field is
non-null and its allow sequence is non-null; and zero-valued `max_msgs` and
`expires` are replaced by the defaults, non-zero values kept. -/
theorem claim8_validate_response_idempotent (p : Option Permissions) :
    validateResponsePermissions (validateResponsePermissions p) =
      validateResponsePermissions p ∧
    (∀ q, validateResponsePermissions p = some q → q.response ≠ none →
      ∃ pb al, q.publish = some pb ∧ pb.allow = some al) ∧
    (∀ perm r, p = some perm → perm.response = some r →
      ∃ q, validateResponsePermissions p = some q ∧
        q.response = some
          { maxMsgs := if r.maxMsgs = 0 then DEFAULT_ALLOW_RESPONSE_MAX_MSGS else r.maxMsgs
            expires := if r.expires = 0 then DEFAULT_ALLOW_RESPONSE_EXPIRATION else r.expires }) := by
  rcases p with _ | ⟨pubOpt, subOpt, respOpt⟩
  · refine ⟨rfl, ?_, ?_⟩
    · intro q hq
      simp [validateResponsePermissions] at hq
    · intro perm r hp
      exact absurd hp (by simp)
  · rcases respOpt with _ | ⟨mm, ex⟩
    · refine ⟨rfl, ?_, ?_⟩
      · intro q hq hr
        simp [validateResponsePermissions] at hq
        exact absurd (congrArg Permissions.response hq.symm) (by simpa using hr)
      · intro perm r hp hr
        simp [validateResponsePermissions] at hp ⊢
        rw [← hp] at hr
        simp at hr
    · refine ⟨?_, ?_, ?_⟩
      · rw [vrp_response_some, vrp_response_some]
        by_cases hm : mm = 0 <;> by_cases he : ex = 0 <;>
          norm_num [hm, he, DEFAULT_ALLOW_RESPONSE_MAX_MSGS,
            DEFAULT_ALLOW_RESPONSE_EXPIRATION]
      · intro q hq hr
        rw [vrp_response_some] at hq
        injection hq with hq'
        subst hq'
        exact ⟨_, _, rfl, rfl⟩
      · intro perm r hp hr
        injection hp with hp'
        subst hp'
        simp only at hr
        injection hr with hr'
        subst hr'
        rw [vrp_response_some]
        exact ⟨_, rfl, rfl⟩

/-- Claim C9: `validateAuth` errs iff `no_auth_user` is non-empty and either
a trusted operator is configured, or the users list is absent, or no listed
user carries that username; with `no_auth_user` empty it always succeeds. -/
theorem claim9_validate_auth_characterization (o : Options) :
    validateAuth o ≠ none ↔
      (o.noAuthUser ≠ "" ∧
        (o.trustedOperators ≠ [] ∨ o.users = none ∨
          ∀ u ∈ o.users.getD [], u.username ≠ o.noAuthUser)) := by
  by_cases h1 : o.noAuthUser = ""
  · simp [validateAuth, h1]
  · by_cases h2 : o.trustedOperators = []
    · cases hu : o.users with
      | none =>
        have hv : validateAuth o ≠ none := by
          simp [validateAuth, h1, h2, hu]
        exact iff_of_true hv ⟨h1, Or.inr (Or.inl rfl)⟩
      | some us =>
        by_cases h3 : us.any (fun u => u.username == o.noAuthUser)
        · obtain ⟨u, hmem, hequ⟩ := List.any_eq_true.mp h3
          have hequ' : u.username = o.noAuthUser := by simpa using hequ
          have hv : validateAuth o = none := by
            simp [validateAuth, h1, h2, hu, h3]
          rw [hv]
          apply iff_of_false (fun h => h rfl)
          rintro ⟨-, hd⟩
          rcases hd with hd | hd | hd
          · exact hd h2
          · exact Option.noConfusion hd
          · exact absurd hequ' (hd u (by simpa using hmem))
        · have hall : ∀ u ∈ us, u.username ≠ o.noAuthUser := by
            intro u hmem heq
            apply h3
            rw [List.any_eq_true]
            exact ⟨u, hmem, by simp [heq]⟩
          have hv : validateAuth o ≠ none := by
            simp [validateAuth, h1, h2, hu, h3]
          apply iff_of_true hv
          refine ⟨h1, Or.inr (Or.inr ?_)⟩
          simpa using hall
    · have h2l : o.trustedOperators.length > 0 :=
        List.length_pos.mpr h2
      have hv : validateAuth o ≠ none := by
        simp [validateAuth, h1, h2l]
      exact iff_of_true hv ⟨h1, Or.inl h2⟩

/-- Helper: a predicate false on every element finds nothing. -/
theorem find?_none_of_all_false {l : List String} {fn : String → Bool}
    (h : ∀ x ∈ l, fn x = false) : l.find? fn = none :=
  List.find?_eq_none.mpr (fun x hx => by simp [h x hx])

/-- Helper: the empty string is empty. -/
theorem string_isEmpty_empty : "".isEmpty = true := rfl

/-- Claim C3: when the first peer certificate has no email addresses, an
empty subject string and no URIs, the extractor returns false for every
predicate — so the predicate is never consulted — even when the certificate
carries DNS SANs. -/
theorem claim3_no_usable_identity_false (st : TLSConnState) (cert : TLSCert)
    (rest : List TLSCert) (fn : String → Bool)
    (hp : st.peerCertificates = cert :: rest)
    (he : cert.emailAddresses = [])
    (hs : cert.subjectString = "")
    (hu : cert.uris = []) :
    checkClientTLSCertSubject (some st) fn = false := by
  simp [checkClientTLSCertSubject, checkClientTLSCertSubjectMatch, hp, he, hs, hu,
    string_isEmpty_empty]

/-- Witness for claim C3 at a concrete certificate carrying a DNS SAN. -/
theorem claim3_witness :
    checkClientTLSCertSubject (some { peerCertificates := [certNoIdentity] })
      (fun _ => true) = false :=
  claim3_no_usable_identity_false { peerCertificates := [certNoIdentity] }
    certNoIdentity [] (fun _ => true) rfl rfl rfl rfl

/-- Claim C4 (counterexample): a certificate with a DNS SAN, no emails, an
empty subject and no URIs, whose SAN fails the predicate, makes the extractor
return false at the early guard instead of moving to the RDN/subject
fallbacks — the fallback would have matched here. -/
theorem claim4_counterexample :
    (certDegenerate.dnsNames ≠ [] ∧
     (∀ e ∈ certDegenerate.emailAddresses, fnNotD e = false) ∧
     (∀ d ∈ certDegenerate.dnsNames, fnNotD d = false)) ∧
    checkClientTLSCertSubject (some { peerCertificates := [certDegenerate] }) fnNotD ≠
      tlsFallbackB certDegenerate fnNotD := by
  decide

/-- Claim C4 (amended): the URI candidates are consulted only when the
certificate has neither emails nor DNS SANs — when it has either, the switch
result is the first match among emails then SANs, independent of the URIs —
and if the certificate has emails, or SANs together with a non-empty subject
string, and none of the emails or SANs satisfies the predicate, the extractor
proceeds directly to the RDN-with-domain-components and subject-string
fallbacks, with a result independent of the URI list. -/
theorem claim4_uris_tried_only_without_emails_and_sans
    (cert : TLSCert) (rest : List TLSCert) (fn : String → Bool) :
    (cert.emailAddresses ≠ [] ∨ cert.dnsNames ≠ [] →
      ∀ uris2 : List String,
        tlsSwitchMatch { cert with uris := uris2 } fn =
          (cert.emailAddresses ++ cert.dnsNames).find? fn) ∧
    ((cert.emailAddresses ≠ [] ∨ (cert.dnsNames ≠ [] ∧ cert.subjectString ≠ "")) →
      (∀ e ∈ cert.emailAddresses, fn e = false) →
      (∀ d ∈ cert.dnsNames, fn d = false) →
      ∀ uris2 : List String,
        checkClientTLSCertSubject
          (some { peerCertificates := { cert with uris := uris2 } :: rest }) fn =
          tlsFallbackB cert fn) := by
  constructor
  · intro hor uris2
    unfold tlsSwitchMatch
    by_cases hE : cert.emailAddresses = []
    · have hD : cert.dnsNames ≠ [] := by
        rcases hor with h | h
        · exact absurd hE h
        · exact h
      simp [hE, hD, List.find?_append]
    · simp [hE, List.find?_append]
  · intro hor hemails hdns uris2
    have hfe : cert.emailAddresses.find? fn = none := find?_none_of_all_false hemails
    have hfd : cert.dnsNames.find? fn = none := find?_none_of_all_false hdns
    unfold checkClientTLSCertSubject checkClientTLSCertSubjectMatch tlsFallbackB
    by_cases hE : cert.emailAddresses = []
    · obtain ⟨hD, hS⟩ : cert.dnsNames ≠ [] ∧ cert.subjectString ≠ "" := by
        rcases hor with h | h
        · exact absurd hE h
        · exact h
      simp [tlsSwitchMatch, hE, hD, hS, hfd, String.isEmpty_iff]
      rfl
    · simp [tlsSwitchMatch, hE, hfe, hfd]
      rfl

/-- Witness for the amended claim C4 at a concrete certificate, predicate and
URI list. -/
theorem claim4_witness :
    tlsSwitchMatch { certEmailOnly with uris := ["spiffe://x"] } (fun _ => false) =
      (certEmailOnly.emailAddresses ++ certEmailOnly.dnsNames).find? (fun _ => false) ∧
    checkClientTLSCertSubject
      (some { peerCertificates := [{ certEmailOnly with uris := ["spiffe://x"] }] })
      (fun _ => false) = tlsFallbackB certEmailOnly (fun _ => false) := by
  constructor
  · exact (claim4_uris_tried_only_without_emails_and_sans certEmailOnly []
      (fun _ => false)).1 (Or.inl (by decide)) ["spiffe://x"]
  · exact (claim4_uris_tried_only_without_emails_and_sans certEmailOnly []
      (fun _ => false)).2 (Or.inl (by decide)) (by decide) (by decide) ["spiffe://x"]

/-- Claim C1: with trusted operator keys configured, no user JWT in the
CONNECT, and either no nkey or no configured system account, the ladder
denies the connection — and since the conclusion holds for every oracle
environment, no later step of the ladder can influence the verdict. -/
theorem claim1_trusted_gate_denies (s : ServerState) (env : AuthEnv) (c : Client)
    (o : Options)
    (hreq : getAuthOpts s o c ≠ none)
    (htk : s.trustedKeys ≠ none)
    (hjwt : c.opts.jwt = "")
    (hnk : c.opts.nkey = "" ∨ s.opts.systemAccount = "") :
    processClientOrLeafAuthentication s env c o = denyR := by
  unfold processClientOrLeafAuthentication
  obtain ⟨auth, ha⟩ := Option.ne_none_iff_exists'.mp hreq
  rw [ha]
  exact if_pos ⟨htk, hjwt, hnk⟩

/-- Witness for claim C1: trusted keys set, empty CONNECT. -/
theorem claim1_witness :
    processClientOrLeafAuthentication
      { serverW with trustedKeys := some ["OP"] } envW
      (clientW ClientKind.CLIENT coptsEmpty) optsW = denyR :=
  claim1_trusted_gate_denies { serverW with trustedKeys := some ["OP"] } envW
    (clientW ClientKind.CLIENT coptsEmpty) optsW
    (by decide) (by decide) rfl (Or.inl rfl)

/-- Claim C10: a connection whose kind is none of CLIENT, ROUTER, GATEWAY or
LEAF is denied by the top-level dispatch for every server state and oracle
environment, so no credential source is consulted. -/
theorem claim10_unknown_kind_denied (s : ServerState) (env : AuthEnv) (c : Client)
    (h1 : c.kind ≠ ClientKind.CLIENT) (h2 : c.kind ≠ ClientKind.ROUTER)
    (h3 : c.kind ≠ ClientKind.GATEWAY) (h4 : c.kind ≠ ClientKind.LEAF) :
    checkAuthentication s env c = false := by
  unfold checkAuthentication
  cases hk : c.kind with
  | CLIENT => exact absurd hk h1
  | ROUTER => exact absurd hk h2
  | GATEWAY => exact absurd hk h3
  | LEAF => exact absurd hk h4
  | SYSTEM => rfl

/-- Witness for claim C10 at a SYSTEM-kind connection. -/
theorem claim10_witness :
    checkAuthentication serverW envW (clientW ClientKind.SYSTEM coptsEmpty) = false :=
  claim10_unknown_kind_denied serverW envW (clientW ClientKind.SYSTEM coptsEmpty)
    (by decide) (by decide) (by decide) (by decide)

/-- Helper: under the hypotheses that put the ladder on the JWT path (trusted
keys, a decodable non-blocking JWT, a credential phase that does not deny),
the ladder's result is the JWT verification path's result. -/
theorem process_reduces_to_jwtVerifyPath (s : ServerState) (env : AuthEnv)
    (c : Client) (o : Options) (auth : AuthOptsR) (juc : UserClaims)
    (ha : getAuthOpts s o c = some auth)
    (htk : s.trustedKeys ≠ none)
    (hjwt : c.opts.jwt ≠ "")
    (hdec : env.decodeUserClaims c.opts.jwt = some juc)
    (hblk : env.claimsBlocking juc = false)
    (hphase : credentialPhase s c auth ≠ none) :
    processClientOrLeafAuthentication s env c o = jwtVerifyPath env c juc := by
  have key : processClientOrLeafAuthentication s env c o =
      (if s.trustedKeys ≠ none ∧ c.opts.jwt = "" ∧
          (c.opts.nkey = "" ∨ s.opts.systemAccount = "") then denyR
       else
        match decodeJucStep s env c with
        | none => denyR
        | some juc2 =>
          match credentialPhase s c auth with
          | none => denyR
          | some (nkey0, user0, copts) =>
            finishAuth s env c o auth juc2 nkey0 user0 copts) := by
    unfold processClientOrLeafAuthentication
    rw [ha]
  rw [key, if_neg (by rintro ⟨-, h2, -⟩; exact hjwt h2)]
  have hd : decodeJucStep s env c = some (some juc) := by
    unfold decodeJucStep
    rw [if_pos ⟨htk, hjwt⟩, hdec]
    simp [hblk]
  rw [hd]
  obtain ⟨t, ht⟩ := Option.ne_none_iff_exists'.mp hphase
  rw [ht]
  obtain ⟨nk0, us0, co0⟩ := t
  rfl

/-- Claim C6: for a user JWT whose claims mark it a bearer token, the
nonce-signature verification is skipped — with an empty CONNECT sig the
connection is still admitted when the remaining checks pass — yet the
connection is denied when the issuing account is expired or when that account
revokes the JWT subject. -/
theorem claim6_bearer_token_checks (s : ServerState) (env : AuthEnv) (c : Client)
    (o : Options) (auth : AuthOptsR) (juc : UserClaims) (acc : Account)
    (ha : getAuthOpts s o c = some auth)
    (htk : s.trustedKeys ≠ none)
    (hjwt : c.opts.jwt ≠ "")
    (hdec : env.decodeUserClaims c.opts.jwt = some juc)
    (hblk : env.claimsBlocking juc = false)
    (hbearer : juc.bearerToken = true)
    (hacc : env.lookupAccount
      (if juc.issuerAccount ≠ "" then juc.issuerAccount else juc.issuer) = some acc)
    (htrust : env.isTrustedIssuer acc.issuer = true)
    (hissuer : juc.issuerAccount ≠ "" → acc.hasIssuerKey juc.issuer = true)
    (hphase : credentialPhase s c auth ≠ none) :
    (acc.isExpired = true →
      processClientOrLeafAuthentication s env c o = denyR) ∧
    (acc.checkUserRevoked juc.subject = true →
      processClientOrLeafAuthentication s env c o = denyR) ∧
    (acc.isExpired = false → acc.checkUserRevoked juc.subject = false →
      env.registerNkeyUser (buildInternalNkeyUser juc acc) = true →
      c.opts.sig = "" →
      processClientOrLeafAuthentication s env c o =
        { ok := true, registeredUser := none,
          registeredNkey := some (buildInternalNkeyUser juc acc),
          pubKey := some juc.subject }) := by
  have hJ := process_reduces_to_jwtVerifyPath s env c o auth juc ha htk hjwt hdec hblk hphase
  have hiss : ¬(juc.issuerAccount ≠ "" ∧ (!acc.hasIssuerKey juc.issuer) = true) := by
    rintro ⟨hne, hkey⟩
    rw [hissuer hne] at hkey
    exact Bool.noConfusion hkey
  refine ⟨?_, ?_, ?_⟩
  · intro hexp
    rw [hJ]
    unfold jwtVerifyPath
    rw [hacc]
    simp [htrust, hiss, hexp]
  · intro hrev
    rw [hJ]
    unfold jwtVerifyPath
    rw [hacc]
    cases hexp : acc.isExpired
    · simp [htrust, hiss, hexp, hbearer, hrev]
    · simp [htrust, hiss, hexp]
  · intro hexp hrev hreg hsig
    rw [hJ]
    unfold jwtVerifyPath
    rw [hacc]
    simp [htrust, hiss, hexp, hbearer, hrev, hreg]
    intro hne hkey
    rw [hissuer hne] at hkey
    exact Bool.noConfusion hkey

/-- Helper: body of the ladder once the credential selector has produced an
effective credential set. -/
theorem process_unfold (s : ServerState) (env : AuthEnv) (c : Client) (o : Options)
    (auth : AuthOptsR) (ha : getAuthOpts s o c = some auth) :
    processClientOrLeafAuthentication s env c o =
      (if s.trustedKeys ≠ none ∧ c.opts.jwt = "" ∧
          (c.opts.nkey = "" ∨ s.opts.systemAccount = "") then denyR
       else
        match decodeJucStep s env c with
        | none => denyR
        | some juc =>
          match credentialPhase s c auth with
          | none => denyR
          | some (nkey0, user0, copts) =>
            finishAuth s env c o auth juc nkey0 user0 copts) := by
  unfold processClientOrLeafAuthentication
  rw [ha]

/-- Witness for claim C6: a bearer-token JWT with an empty CONNECT sig is
admitted when the account is neither expired nor revoking the subject. -/
theorem claim6_witness :
    processClientOrLeafAuthentication serverTrusted envBearer clientJwt optsW =
      { ok := true, registeredUser := none,
        registeredNkey := some (buildInternalNkeyUser jucBearer accW),
        pubKey := some "U" } := by
  have h := claim6_bearer_token_checks serverTrusted envBearer clientJwt optsW
    authEmptyW jucBearer accW (by decide) (by decide) (by decide) rfl rfl rfl rfl rfl
    (fun hne => absurd rfl hne) (by decide)
  exact h.2.2 rfl rfl rfl rfl

/-- Claim C5 (counterexample): a LEAF connection with an empty CONNECT
username, a users map and a `no_auth_user` naming a user of that map is NOT
authenticated as that user — the no-auth-user synthesis is gated on CLIENT
kind, so the leaf falls through to the leafnode account binding and no user
is registered. -/
theorem claim5_counterexample :
    (getAuthOpts serverNoAuth optsNoAuth (clientW ClientKind.LEAF coptsEmpty) =
        some authNoAuth ∧
      authNoAuth.users = some mGuest ∧ authNoAuth.tlsMap = false ∧
      (clientW ClientKind.LEAF coptsEmpty).opts.username = "" ∧
      mapLookup mGuest authNoAuth.noAuthUser = some uGuest) ∧
    (processClientOrLeafAuthentication serverNoAuth envW
      (clientW ClientKind.LEAF coptsEmpty) optsNoAuth).registeredUser ≠ some uGuest := by
  decide

/-- Claim C5 (amended): in the client/leaf ladder with a users map, no TLS
map and no CONNECT nkey (and no trusted operator keys), for a CLIENT-kind
connection with an empty CONNECT username and a non-empty `no_auth_user`
naming a user present in the users map, the CONNECT username and password are
synthesized from that user and the connection is admitted as that user
exactly when the user's stored password compares successfully against itself
(as it does whenever the stored password is not a bcrypt hash); and for any
kind, a non-empty CONNECT username absent from the users map is denied. -/
theorem claim5_no_auth_user_amended (s : ServerState) (env : AuthEnv) (c : Client)
    (o : Options) (auth : AuthOptsR) (m : List (String × User))
    (ha : getAuthOpts s o c = some auth)
    (htk : s.trustedKeys = none)
    (husers : auth.users = some m)
    (htls : auth.tlsMap = false)
    (hnkey : c.opts.nkey = "") :
    (∀ u : User,
      c.kind = ClientKind.CLIENT → c.opts.username = "" → auth.noAuthUser ≠ "" →
      mapLookup m auth.noAuthUser = some u → u.username = auth.noAuthUser →
      processClientOrLeafAuthentication s env c o =
        (if comparePasswords env u.password u.password then
          { ok := true, registeredUser := some u, registeredNkey := none, pubKey := none }
         else denyR)) ∧
    (c.opts.username ≠ "" → mapLookup m c.opts.username = none →
      processClientOrLeafAuthentication s env c o = denyR) := by
  have key := process_unfold s env c o auth ha
  rw [if_neg (by rintro ⟨h1, -⟩; exact h1 htk)] at key
  have hd : decodeJucStep s env c = some none := by
    unfold decodeJucStep
    rw [if_neg (by rintro ⟨h1, -⟩; exact h1 htk)]
  rw [hd] at key
  constructor
  · intro u hkind husername hnau hlook hun
    have hphase : credentialPhase s c auth =
        some (none, some u,
          { c.opts with username := u.username, password := u.password }) := by
      simp only [credentialPhase, husers, htls, hnkey, hkind, husername, hnau, hlook,
        hun, Option.getD_some, ne_eq, not_true_eq_false, false_and, and_false,
        if_false, Bool.false_eq_true, reduceCtorEq, not_false_eq_true, and_self,
        if_true, ite_false, ite_true]
    rw [key, hphase]
    simp only [finishAuth, genNkeyStep]
    rw [if_neg (by rintro ⟨-, -, h3, -⟩; exact h3 hnkey)]
  · intro husername hmiss
    have hphase : credentialPhase s c auth = none := by
      simp only [credentialPhase, husers, htls, hnkey, husername, hmiss,
        Option.getD_some, ne_eq, not_true_eq_false, false_and, and_false,
        reduceCtorEq, not_false_eq_true, and_self]
      simp [husername, hmiss]
    rw [key, hphase]

/-- Password self-comparison of the guest's empty password succeeds. -/
theorem comparePasswords_empty_guest :
    comparePasswords envW uGuest.password uGuest.password = true := by
  decide

/-- Witness for the amended claim C5: a CLIENT connection with an empty
CONNECT username is admitted and registered as the guest user named by
`no_auth_user`. -/
theorem claim5_witness :
    processClientOrLeafAuthentication serverNoAuth envW
      (clientW ClientKind.CLIENT coptsEmpty) optsNoAuth =
      { ok := true, registeredUser := some uGuest, registeredNkey := none,
        pubKey := none } := by
  have h := (claim5_no_auth_user_amended serverNoAuth envW
    (clientW ClientKind.CLIENT coptsEmpty) optsNoAuth authNoAuth mGuest
    (by decide) rfl (by decide) (by decide) rfl).1 uGuest rfl rfl
    (by decide) (by decide) (by decide)
  rw [h, if_pos comparePasswords_empty_guest]

/-- Helper: every entry of a map built by folding overwrite-inserts of
transformed inputs over a start map is an entry of the start map or the
transform of some input. -/
theorem mem_foldl_mapInsert {α β : Type} (key : α → String) (f : α → β) :
    ∀ (l : List α) (m : List (String × β)) (kv : String × β),
      kv ∈ l.foldl (fun acc u => mapInsert acc (key u) (f u)) m →
      kv ∈ m ∨ ∃ u ∈ l, kv = (key u, f u) := by
  intro l
  induction l with
  | nil =>
    intro m kv h
    exact Or.inl h
  | cons a t ih =>
    intro m kv h
    rw [List.foldl_cons] at h
    rcases ih _ kv h with h' | ⟨u, hu, rfl⟩
    · unfold mapInsert at h'
      rcases List.mem_append.mp h' with h'' | h''
      · exact Or.inl (List.mem_filter.mp h'').1
      · obtain rfl := List.mem_singleton.mp h''
        exact Or.inr ⟨a, List.mem_cons_self a t, rfl⟩
    · exact Or.inr ⟨u, List.mem_cons_of_mem a hu, rfl⟩

/-- Helper: the account slot of a built nkey entry is the declared account
resolved through the account registry. -/
theorem buildNkeyEntry_account (env : AuthEnv) (u : NkeyUser) :
    (buildNkeyEntry env u).account =
      u.account.map (fun a => (env.accountsLoad a.name).getD a) := by
  rcases u with ⟨nk, perms, accOpt, sk⟩
  rcases accOpt with _ | a
  · rcases perms with _ | pp <;> simp [buildNkeyEntry, NkeyUser.clone]
  · rcases perms with _ | pp <;> cases h : env.accountsLoad a.name <;>
      simp [buildNkeyEntry, NkeyUser.clone, h]

/-- Helper: the account slot of a built user entry is the declared account
resolved through the account registry. -/
theorem buildUserEntry_account (env : AuthEnv) (u : User) :
    (buildUserEntry env u).account =
      u.account.map (fun a => (env.accountsLoad a.name).getD a) := by
  rcases u with ⟨un, pw, perms, accOpt⟩
  rcases accOpt with _ | a
  · rcases perms with _ | pp <;> simp [buildUserEntry, User.clone]
  · rcases perms with _ | pp <;> cases h : env.accountsLoad a.name <;>
      simp [buildUserEntry, User.clone, h]

/-- Helper: closed form of the built tables. -/
theorem buildTables_eq (s : ServerState) (env : AuthEnv)
    (nko : List NkeyUser) (uo : List User) :
    buildNkeysAndUsersFromOptions s env nko uo =
      ((if nko.length > 0 then
          some ((nko.foldl (fun m u => mapInsert m u.nkey (buildNkeyEntry env u)) []).map
            (assignOrphanNkey s.gacc))
        else none),
       (if uo.length > 0 then
          some ((uo.foldl (fun m u => mapInsert m u.username (buildUserEntry env u)) []).map
            (assignOrphanUser s.gacc))
        else none)) := by
  unfold buildNkeysAndUsersFromOptions assignGlobalAccountToOrphanUsers
  by_cases hn : nko.length > 0 <;> by_cases hu : uo.length > 0 <;>
    simp [hn, hu]

/-- Claim C7: after the table build, every entry of the resulting nkey map
and user map carries a non-null account: the entry comes from an input whose
declared account, when present, is replaced by the registry's account of the
same name if registered and kept otherwise, and whose missing account is
replaced by the global account. -/
theorem claim7_built_tables_have_accounts (s : ServerState) (env : AuthEnv)
    (nko : List NkeyUser) (uo : List User) :
    (∀ kv ∈ (buildNkeysAndUsersFromOptions s env nko uo).1.getD [],
      kv.2.account ≠ none ∧
      ∃ u ∈ nko, kv.1 = u.nkey ∧
        kv.2.account = some (resolveEntryAccount env s.gacc u.account)) ∧
    (∀ kv ∈ (buildNkeysAndUsersFromOptions s env nko uo).2.getD [],
      kv.2.account ≠ none ∧
      ∃ u ∈ uo, kv.1 = u.username ∧
        kv.2.account = some (resolveEntryAccount env s.gacc u.account)) := by
  constructor
  · intro kv hkv
    have h1 : (buildNkeysAndUsersFromOptions s env nko uo).1 =
        if nko.length > 0 then
          some ((nko.foldl (fun m u => mapInsert m u.nkey (buildNkeyEntry env u)) []).map
            (assignOrphanNkey s.gacc))
        else none := by
      rw [buildTables_eq]
    rw [h1] at hkv
    by_cases hn : nko.length > 0
    · rw [if_pos hn, Option.getD_some] at hkv
      simp only [List.mem_map] at hkv
      obtain ⟨kv', hkv', rfl⟩ := hkv
      rcases mem_foldl_mapInsert NkeyUser.nkey (buildNkeyEntry env) nko [] kv' hkv' with
        h | ⟨u, hu, rfl⟩
      · exact absurd h (List.not_mem_nil kv')
      · refine ?_
        have hacc := buildNkeyEntry_account env u
        rcases hau : u.account with _ | a
        · rw [hau] at hacc
          simp only [Option.map_none'] at hacc
          unfold assignOrphanNkey
          rw [if_pos hacc]
          exact ⟨by simp, u, hu, rfl, by simp [resolveEntryAccount, hau]⟩
        · rw [hau] at hacc
          simp only [Option.map_some'] at hacc
          unfold assignOrphanNkey
          rw [if_neg (by rw [hacc]; exact fun hh => Option.noConfusion hh)]
          exact ⟨by rw [hacc]; exact fun hh => Option.noConfusion hh,
            u, hu, rfl, by rw [hacc]; simp [resolveEntryAccount, hau]⟩
    · rw [if_neg hn, Option.getD_none] at hkv
      exact absurd hkv (List.not_mem_nil kv)
  · intro kv hkv
    have h2 : (buildNkeysAndUsersFromOptions s env nko uo).2 =
        if uo.length > 0 then
          some ((uo.foldl (fun m u => mapInsert m u.username (buildUserEntry env u)) []).map
            (assignOrphanUser s.gacc))
        else none := by
      rw [buildTables_eq]
    rw [h2] at hkv
    by_cases hn : uo.length > 0
    · rw [if_pos hn, Option.getD_some] at hkv
      simp only [List.mem_map] at hkv
      obtain ⟨kv', hkv', rfl⟩ := hkv
      rcases mem_foldl_mapInsert User.username (buildUserEntry env) uo [] kv' hkv' with
        h | ⟨u, hu, rfl⟩
      · exact absurd h (List.not_mem_nil kv')
      · have hacc := buildUserEntry_account env u
        rcases hau : u.account with _ | a
        · rw [hau] at hacc
          simp only [Option.map_none'] at hacc
          unfold assignOrphanUser
          rw [if_pos hacc]
          exact ⟨by simp, u, hu, rfl, by simp [resolveEntryAccount, hau]⟩
        · rw [hau] at hacc
          simp only [Option.map_some'] at hacc
          unfold assignOrphanUser
          rw [if_neg (by rw [hacc]; exact fun hh => Option.noConfusion hh)]
          exact ⟨by rw [hacc]; exact fun hh => Option.noConfusion hh,
            u, hu, rfl, by rw [hacc]; simp [resolveEntryAccount, hau]⟩
    · rw [if_neg hn, Option.getD_none] at hkv
      exact absurd hkv (List.not_mem_nil kv)

/-- Witness for claim C7: the built entry for an account-less user is bound
to the global account. -/
theorem claim7_witness :
    (("alice", { userAlice with account := some serverW.gacc }) : String × User).2.account ≠
      none ∧
    ∃ u ∈ [userAlice],
      (("alice", { userAlice with account := some serverW.gacc }) : String × User).1 =
        u.username ∧
      (("alice", { userAlice with account := some serverW.gacc }) : String × User).2.account =
        some (resolveEntryAccount envW serverW.gacc u.account) :=
  (claim7_built_tables_have_accounts serverW envW [] [userAlice]).2
    ("alice", { userAlice with account := some serverW.gacc }) (by decide)

/-- Witness for claim C8 at a concrete permission set carrying a response
permission with zero fields and no publish permission. -/
theorem claim8_witness :
    ∃ pb al,
      (⟨some ⟨some [], none⟩, none,
        some ⟨DEFAULT_ALLOW_RESPONSE_MAX_MSGS, DEFAULT_ALLOW_RESPONSE_EXPIRATION⟩⟩ :
          Permissions).publish = some pb ∧ pb.allow = some al :=
  (claim8_validate_response_idempotent (some ⟨none, none, some ⟨0, 0⟩⟩)).2.1
    ⟨some ⟨some [], none⟩, none,
      some ⟨DEFAULT_ALLOW_RESPONSE_MAX_MSGS, DEFAULT_ALLOW_RESPONSE_EXPIRATION⟩⟩
    (by decide) (by decide)

/-- Witness for claim C9 at a concrete configuration with `no_auth_user` set
and no users list: the validator rejects it. -/
theorem claim9_witness : validateAuth optsNoAuth ≠ none :=
  (claim9_validate_auth_characterization optsNoAuth).mpr
    ⟨by decide, Or.inr (Or.inl rfl)⟩

end NatsAuth
